import Mathlib

/-!
Verification of the airguard telemetry ingestion-and-fanout pipeline.

The development embeds, as executable Lean functions, the parts of the
repository that the claims of the specification are about:

* the HTTP write endpoint `app.post(/v1/samples)` and the paginated read
  endpoint `app.get(/v1/samples)` of the Node backend;
* the `processSample` handler of the MQTT bridge;
* the WebSocket fan-out `broadcastToWS` and the connection close/error
  handlers;
* the hard gate of the ESP32 sender firmware in `loop` together with its
  helpers `linkOK`, `mpuHealthy`, `gpsPresent`, `gpsFresh`, `gpsFixOK`.

The Sample Store itself is MongoDB, an external dependency: its
`insertOne` against the unique index on `batchId` (created in `connectDB`)
is modelled as a single atomic transition on an explicit store state,
which is exactly the uniqueness/atomicity guarantee the index provides.
Timestamps are `Nat` milliseconds; `millis()` arithmetic is modelled
without 32-bit wraparound (timestamps are taken monotone).
-/

namespace Airguard

/-- One telemetry batch as the backend/bridge see it (a JSON document).
`batchId` is `Option` because the code never validates its presence and
MongoDB indexes a missing field as null.  `tempC` stands for the sensor
payload fields (motion/position values), which both paths pass through
untouched; `createdAt`/`updatedAt` are the server-assigned timestamps. -/
structure Sample where
  batchId : Option Nat
  tempC : Int
  createdAt : Option Nat
  updatedAt : Option Nat
deriving DecidableEq, Repr

/-- Result of `samplesCollection.insertOne` under the unique index on
`batchId`: success, or the duplicate-key error (code 11000). -/
inductive InsertOutcome
  | Inserted
  | Duplicate
deriving DecidableEq, Repr

/-- Does the store already hold a document with this `batchId`?  (The
unique index created in `connectDB` compares the indexed value; a missing
`batchId` is indexed as null, so two absent ids also collide.) -/
def hasBatch (store : List Sample) (k : Option Nat) : Bool :=
  store.any (fun s => s.batchId == k)

/-- Operation `insertOne` with the unique index on `batchId`, as one atomic
transition: the uniqueness check and the insert are a single step. -/
def insertOne (store : List Sample) (s : Sample) : InsertOutcome × List Sample :=
  if hasBatch store s.batchId then (.Duplicate, store)
  else (.Inserted, s :: store)

/-- Global state: the shared MongoDB `samples` collection plus the
invocation log of the WebSocket fan-out of each process (the backend on the
direct path, the bridge on the bus path).  A sample is prepended to a
cast list each time the `broadcastToWS` of that process is invoked for it. -/
structure Sys where
  store : List Sample
  backendCasts : List Sample
  bridgeCasts : List Sample
deriving DecidableEq, Repr

/-- Responses of `POST /v1/samples`: 201 created, 409 duplicate, 500. -/
inductive HttpResp
  | created (batchId : Option Nat)
  | conflict
  | serverError
deriving DecidableEq, Repr

/-- Direct-path timestamping: `data.createdAt = new Date();
data.updatedAt = new Date();` — unconditional overwrite. -/
def stampDirect (now : Nat) (body : Sample) : Sample :=
  { body with createdAt := some now, updatedAt := some now }

/-- Handler `app.post(/v1/samples)`: mutate the timestamps of the body,
then `insertOne`; on success broadcast the new-sample event and answer
201; on the
duplicate-key error answer 409 and do nothing else. -/
def postSample (now : Nat) (sys : Sys) (body : Sample) : HttpResp × Sys :=
  let data := stampDirect now body
  match insertOne sys.store data with
  | (.Inserted, st) =>
      (.created data.batchId,
       { sys with store := st, backendCasts := data :: sys.backendCasts })
  | (.Duplicate, _) => (.conflict, sys)

/-- JS fallback `if (!t) t = now`: `undefined`, null and the number 0 are falsy,
any other timestamp value is kept. -/
def jsOrNow (t : Option Nat) (now : Nat) : Option Nat :=
  match t with
  | none => some now
  | some 0 => some now
  | some v => some v

/-- Bus-path timestamping in `processSample`: `if (!data.createdAt)
data.createdAt = new Date();` and likewise for `updatedAt`. -/
def stampBus (now : Nat) (d : Sample) : Sample :=
  { d with createdAt := jsOrNow d.createdAt now
         , updatedAt := jsOrNow d.updatedAt now }

/-- Handler `processSample` of the bridge: timestamp-if-absent, then
`insertOne`; on success broadcast to the WebSocket clients owned by the
bridge; the duplicate
key error is logged and swallowed (no response exists on this path). -/
def processSample (now : Nat) (sys : Sys) (data0 : Sample) : Sys :=
  let data := stampBus now data0
  match insertOne sys.store data with
  | (.Inserted, st) =>
      { sys with store := st, bridgeCasts := data :: sys.bridgeCasts }
  | (.Duplicate, _) => sys

/-- Which ingest path a submission arrives on. -/
inductive Path
  | direct
  | bus
deriving DecidableEq, Repr

/-- One submission event: path, server clock at arrival, raw payload. -/
def submitStep (sys : Sys) (ev : Path × Nat × Sample) : Sys :=
  match ev.1 with
  | .direct => (postSample ev.2.1 sys ev.2.2).2
  | .bus => processSample ev.2.1 sys ev.2.2

/-- Run a finite interleaving of submissions (any mix of paths). -/
def runSubmits (evs : List (Path × Nat × Sample)) (sys : Sys) : Sys :=
  evs.foldl submitStep sys

/-- Number of stored records carrying a given `batchId`. -/
def storeCount (b : Option Nat) (sys : Sys) : Nat :=
  (sys.store.filter (fun s => s.batchId == b)).length

/-- Number of fan-out invocations (either process) for a given `batchId`. -/
def castCount (b : Option Nat) (sys : Sys) : Nat :=
  ((sys.backendCasts ++ sys.bridgeCasts).filter (fun s => s.batchId == b)).length

/-- Interleaved execution of one-shot insert processes: the schedule
lists which process performs its (atomic) `insertOne` next; returns the
outcomes in schedule order and the final store. -/
def runSchedule (sched : List (Fin 2)) (s : Fin 2 → Sample)
    (store : List Sample) : List InsertOutcome × List Sample :=
  match sched with
  | [] => ([], store)
  | i :: rest =>
      let r := insertOne store (s i)
      let q := runSchedule rest s r.2
      (r.1 :: q.1, q.2)

/-- Limit computation of `GET /v1/samples`:
`Math.min(parseInt(req.query.limit) || 100, 1000)`.  The argument is the
`parseInt` result (`none` for a missing or non-numeric parameter, i.e.
NaN); `0` is falsy in JS, so it also falls back to the default 100.
There is no lower clamp. -/
def effectiveLimit (requested : Option Int) : Int :=
  min (match requested with
       | none => 100
       | some n => if n = 0 then 100 else n) 1000

/-- The page returned by `GET /v1/samples` for a non-negative effective
limit: `.skip(skip).limit(limit)` on the cursor.  (The
createdAt-descending sort only permutes the store; it does not affect
the page length, which is what the pagination claim is about.) -/
def listSamples (store : List Sample) (requested : Option Int) (skip : Nat) :
    List Sample :=
  (store.drop skip).take (effectiveLimit requested).toNat

/-! ### Fan-out broadcaster (backend `broadcastToWS` and ws handlers) -/

/-- One WebSocket client as the broadcaster sees it: an identity, the
`readyState` field (1 = OPEN), and whether a `send` on it would throw. -/
structure WSClient where
  id : Nat
  readyState : Nat
  sendFails : Bool
deriving DecidableEq, Repr

/-- Function `broadcastToWS`: serialize the message once (the `payload`
argument), then for each member of `wsClients` with `readyState === 1`
try `send`, catching and logging any error.  Returns the client set as
it stands afterward (the function never mutates it) together with the
deliveries `(client id, payload)` that succeeded. -/
def broadcastToWS (clients : List WSClient) (payload : Nat) :
    List WSClient × List (Nat × Nat) :=
  (clients,
   (clients.filter (fun c => c.readyState == 1 && !c.sendFails)).map
     (fun c => (c.id, payload)))

/-- Connection close handler: `wsClients.delete(ws)`. -/
def wsOnClose (clients : List WSClient) (w : WSClient) : List WSClient :=
  clients.filter (fun c => c != w)

/-- Connection error handler: log, then `wsClients.delete(ws)`. -/
def wsOnError (clients : List WSClient) (w : WSClient) : List WSClient :=
  clients.filter (fun c => c != w)

/-! ### Gate evaluator (sender firmware `loop` hard gate) -/

/-- Constant `TEN_SEC_MS = 10000` — the hold threshold. -/
def TEN_SEC_MS : Nat := 10000

/-- Firmware state read at the moment the button is released: the
current clock, the hold start, and the health-signal timestamps/flags
the helper predicates of the gate consult. -/
structure GateState where
  now : Nat
  pressStart : Nat
  peerAdded : Bool
  lastSendSuccessTs : Nat
  mpuReady : Bool
  mpuLastOK : Nat
  lastGpsCharMs : Nat
  lastGpsUpdateMs : Nat
  gpsLocValid : Bool
  gpsLocAgeMs : Nat
  gpsSats : Nat
deriving DecidableEq, Repr

/-- Flag `linkOK = peerAdded && (lastSendSuccessTs!=0) &&
(millis()-lastSendSuccessTs<5000)` computed in `loop`. -/
def linkOK (g : GateState) : Bool :=
  g.peerAdded && (g.lastSendSuccessTs != 0)
    && decide (g.now - g.lastSendSuccessTs < 5000)

/-- Helper `mpuHealthy(){ return mpuReady && (millis()-mpuLastOK<1200); }` -/
def mpuHealthy (g : GateState) : Bool :=
  g.mpuReady && decide (g.now - g.mpuLastOK < 1200)

/-- Helper `gpsPresent(){ return (millis()-lastGpsCharMs) < 3000; }` -/
def gpsPresent (g : GateState) : Bool :=
  decide (g.now - g.lastGpsCharMs < 3000)

/-- Helper `gpsFresh(){ return (millis()-lastGpsUpdateMs) < 3000; }` -/
def gpsFresh (g : GateState) : Bool :=
  decide (g.now - g.lastGpsUpdateMs < 3000)

/-- Helper `gpsFixOK(){ return gpsPresent() && gpsFresh() &&
gps.location.isValid() && gps.location.age()<2000 &&
gps.satellites.value()>=1; }` -/
def gpsFixOK (g : GateState) : Bool :=
  gpsPresent g && gpsFresh g && g.gpsLocValid
    && decide (g.gpsLocAgeMs < 2000) && decide (1 ≤ g.gpsSats)

/-- Reasons of the four `return`-with-red-blink branches of the gate. -/
inductive GateReason
  | HoldTooShort
  | LinkDown
  | SensorUnhealthy
  | NoPositionFix
deriving DecidableEq, Repr

/-- Outcome of the hard gate. -/
inductive GateResult
  | Allow
  | Deny (r : GateReason)
deriving DecidableEq, Repr

/-- The hard gate in `loop`, run on button release with
`dur = millis() - pressStart`:
`if(dur < TEN_SEC_MS) discard; if(!peerAdded || !linkOK) blocked;
if(!mpuHealthy()) blocked; if(!gpsFixOK()) blocked; else send`. -/
def evaluate (g : GateState) : GateResult :=
  if g.now - g.pressStart < TEN_SEC_MS then .Deny .HoldTooShort
  else if !(g.peerAdded && linkOK g) then .Deny .LinkDown
  else if !(mpuHealthy g) then .Deny .SensorUnhealthy
  else if !(gpsFixOK g) then .Deny .NoPositionFix
  else .Allow

/-! ### Concrete instances used by witnesses and counterexamples -/

/-- A state in which every gate condition is satisfied. -/
def gAllow : GateState :=
  ⟨20000, 0, true, 16000, true, 19500, 19000, 19000, true, 100, 5⟩

/-- A state whose link has never been acknowledged and whose hold lasted
only 5000 ms. -/
def gZero : GateState :=
  ⟨5000, 0, true, 0, true, 4900, 4500, 4500, true, 100, 5⟩

/-- `gZero` with a hold long enough to pass the first check. -/
def gZeroHold : GateState :=
  ⟨20000, 0, true, 0, true, 19900, 19500, 19500, true, 100, 5⟩

/-- The empty system: nothing stored, nothing broadcast. -/
def sys0 : Sys := ⟨[], [], []⟩

/-- First submission of batch 10 (tempC 25, as in the end-to-end
scenario of the spec). -/
def sDup1 : Sample := ⟨some 10, 25, some 1, some 1⟩

/-- Retry of batch 10 with a different tempC. -/
def sDup2 : Sample := ⟨some 10, 30, none, none⟩

/-- A system that already stored (and broadcast) `sDup1`. -/
def sysDup : Sys := ⟨[sDup1], [sDup1], []⟩

/-- A sample with the required `batchId` missing. -/
def sNoId : Sample := ⟨none, 7, none, none⟩

/-- A payload that already carries timestamps. -/
def pStamped : Sample := ⟨some 1, 3, some 7, some 7⟩

/-- A payload without inbound timestamps. -/
def pPlain : Sample := ⟨some 4, 9, none, none⟩

/-- A payload that carries server timestamps. -/
def pCarry : Sample := ⟨some 2, 0, some 5, some 5⟩

/-- A payload carrying nonzero timestamps 5 and 6. -/
def pKeep : Sample := ⟨some 3, 0, some 5, some 6⟩

/-- Two racing producers submitting the same batch id 77 with different
payloads. -/
def raceSamples : Fin 2 → Sample :=
  fun i => if i = 0 then ⟨some 77, 1, none, none⟩ else ⟨some 77, 2, none, none⟩

/-- Subscriber A: open, sends fine. -/
def wsA : WSClient := ⟨0, 1, false⟩

/-- Subscriber B: open, but `send` throws. -/
def wsB : WSClient := ⟨1, 1, true⟩

/-- Subscriber C: open, sends fine. -/
def wsC : WSClient := ⟨2, 1, false⟩

/-! ## Helper lemmas -/

/-- Direct-path stamping never touches the dedup key. -/
theorem stampDirect_batchId (now : Nat) (s : Sample) :
    (stampDirect now s).batchId = s.batchId := rfl

/-- Bus-path stamping never touches the dedup key. -/
theorem stampBus_batchId (now : Nat) (s : Sample) :
    (stampBus now s).batchId = s.batchId := rfl

/-- A duplicate direct-path submission answers 409 and changes nothing. -/
theorem postSample_dup (now : Nat) (sys : Sys) (s : Sample)
    (h : hasBatch sys.store s.batchId = true) :
    postSample now sys s = (.conflict, sys) := by
  simp [postSample, insertOne, stampDirect_batchId, h]

/-- A duplicate bus-path submission changes nothing. -/
theorem processSample_dup (now : Nat) (sys : Sys) (s : Sample)
    (h : hasBatch sys.store s.batchId = true) :
    processSample now sys s = sys := by
  simp [processSample, insertOne, stampBus_batchId, h]

/-- A fresh direct-path submission stores the stamped sample, broadcasts
it, and answers 201 with its batch id. -/
theorem postSample_new (now : Nat) (sys : Sys) (s : Sample)
    (h : hasBatch sys.store s.batchId = false) :
    postSample now sys s =
      (.created s.batchId,
       { sys with store := stampDirect now s :: sys.store
                , backendCasts := stampDirect now s :: sys.backendCasts }) := by
  simp [postSample, insertOne, stampDirect_batchId, h]

/-- A fresh bus-path submission stores the stamped sample and broadcasts
it on the bridge side. -/
theorem processSample_new (now : Nat) (sys : Sys) (s : Sample)
    (h : hasBatch sys.store s.batchId = false) :
    processSample now sys s =
      { sys with store := stampBus now s :: sys.store
               , bridgeCasts := stampBus now s :: sys.bridgeCasts } := by
  simp [processSample, insertOne, stampBus_batchId, h]

/-- The per-key record count is positive exactly when the unique index
already contains the key. -/
theorem storeCount_pos_iff (b : Option Nat) (sys : Sys) :
    0 < storeCount b sys ↔ hasBatch sys.store b = true := by
  rw [storeCount, hasBatch, List.length_pos, List.any_eq_true]
  constructor
  · intro h
    obtain ⟨x, hx⟩ := List.exists_mem_of_ne_nil _ h
    have hm := List.mem_filter.mp hx
    exact ⟨x, hm.1, hm.2⟩
  · rintro ⟨x, hx, hbx⟩ hnil
    have : x ∈ sys.store.filter (fun s => s.batchId == b) :=
      List.mem_filter.mpr ⟨hx, hbx⟩
    rw [hnil] at this
    exact absurd this (List.not_mem_nil x)

/-- A key with no stored record is absent from the unique index. -/
theorem hasBatch_of_storeCount_zero (b : Option Nat) (sys : Sys)
    (h : storeCount b sys = 0) : hasBatch sys.store b = false := by
  cases hc : hasBatch sys.store b
  · rfl
  · have := (storeCount_pos_iff b sys).mpr hc
    omega

/-- A submission of an already-present key is absorbed by either path. -/
theorem submit_dup (b : Option Nat) (now : Nat) (sys : Sys) (s : Sample)
    (p : Path) (hb : s.batchId = b) (h : hasBatch sys.store b = true) :
    submitStep sys (p, now, s) = sys := by
  subst hb
  cases p
  · simp [submitStep, postSample_dup now sys s h]
  · simp [submitStep, processSample_dup now sys s h]

/-- Once the key is present, an arbitrary further interleaving of
submissions of that key (any mix of paths) changes nothing. -/
theorem runSubmits_dup (b : Option Nat) (evs : List (Path × Nat × Sample))
    (sys : Sys) (hall : ∀ ev ∈ evs, (ev.2.2 : Sample).batchId = b)
    (h : hasBatch sys.store b = true) : runSubmits evs sys = sys := by
  induction evs with
  | nil => rfl
  | cons e rest ih =>
    obtain ⟨p, now, s⟩ := e
    have he : s.batchId = b := hall (p, now, s) (List.mem_cons_self _ _)
    have hstep : submitStep sys (p, now, s) = sys := submit_dup b now sys s p he h
    show runSubmits rest (submitStep sys (p, now, s)) = sys
    rw [hstep]
    exact ih (fun ev hev => hall ev (List.mem_cons_of_mem _ hev))

/-- A submission of an absent key, by either path, adds exactly one
record, invokes the fan-out exactly once, and makes the key present. -/
theorem submit_new (b : Option Nat) (now : Nat) (sys : Sys) (s : Sample)
    (p : Path) (hb : s.batchId = b) (h : hasBatch sys.store b = false) :
    storeCount b (submitStep sys (p, now, s)) = storeCount b sys + 1
      ∧ castCount b (submitStep sys (p, now, s)) = castCount b sys + 1
      ∧ hasBatch (submitStep sys (p, now, s)).store b = true := by
  subst hb
  cases p
  · refine ⟨?_, ?_, ?_⟩ <;>
      simp [submitStep, postSample_new now sys s h, storeCount, castCount,
        hasBatch, stampDirect_batchId, List.filter_cons]
  · refine ⟨?_, ?_, ?_⟩ <;>
      simp [submitStep, processSample_new now sys s h, storeCount, castCount,
        hasBatch, stampBus_batchId, List.filter_cons]
    omega

/-- C2: with the auxiliary flags pinned (peer registered, ack timestamp
nonzero, MPU initialised, GPS characters and field updates flowing), the
gate allows iff hold ≥ 10000 ms, link age < 5000 ms, sensor age
< 1200 ms, and the position is valid with age < 2000 ms and ≥ 1
satellite; otherwise it denies with the first violated reason in the
order HoldTooShort, LinkDown, SensorUnhealthy, NoPositionFix; a hold of
exactly 10000 ms passes check 1 and one of 9999 ms is denied
HoldTooShort. -/
theorem gate_characterization (g : GateState)
    (hp : g.peerAdded = true) (hts : g.lastSendSuccessTs ≠ 0)
    (hm : g.mpuReady = true)
    (hchar : g.now - g.lastGpsCharMs < 3000)
    (hupd : g.now - g.lastGpsUpdateMs < 3000) :
    (evaluate g = .Allow ↔
      (TEN_SEC_MS ≤ g.now - g.pressStart
        ∧ g.now - g.lastSendSuccessTs < 5000
        ∧ g.now - g.mpuLastOK < 1200
        ∧ (g.gpsLocValid = true ∧ g.gpsLocAgeMs < 2000 ∧ 1 ≤ g.gpsSats)))
    ∧ (g.now - g.pressStart < TEN_SEC_MS →
        evaluate g = .Deny .HoldTooShort)
    ∧ (TEN_SEC_MS ≤ g.now - g.pressStart →
        ¬ (g.now - g.lastSendSuccessTs < 5000) →
        evaluate g = .Deny .LinkDown)
    ∧ (TEN_SEC_MS ≤ g.now - g.pressStart →
        g.now - g.lastSendSuccessTs < 5000 →
        ¬ (g.now - g.mpuLastOK < 1200) →
        evaluate g = .Deny .SensorUnhealthy)
    ∧ (TEN_SEC_MS ≤ g.now - g.pressStart →
        g.now - g.lastSendSuccessTs < 5000 →
        g.now - g.mpuLastOK < 1200 →
        ¬ (g.gpsLocValid = true ∧ g.gpsLocAgeMs < 2000 ∧ 1 ≤ g.gpsSats) →
        evaluate g = .Deny .NoPositionFix)
    ∧ (g.now - g.pressStart = 10000 → evaluate g ≠ .Deny .HoldTooShort)
    ∧ (g.now - g.pressStart = 9999 → evaluate g = .Deny .HoldTooShort) := by
  simp only [evaluate, linkOK, mpuHealthy, gpsFixOK, gpsPresent, gpsFresh,
    TEN_SEC_MS, hp, hm, hts, hchar, hupd, Bool.and_eq_true, bne_iff_ne,
    ne_eq, not_false_eq_true, decide_eq_true_eq, Bool.not_eq_true',
    Bool.and_eq_false_imp, true_and, decide_True]
  split_ifs <;> simp_all <;> omega

/-- Witness for C2: the gate allows in the fully healthy state. -/
theorem gate_characterization_witness : evaluate gAllow = GateResult.Allow :=
  (gate_characterization gAllow (by decide) (by decide) (by decide)
    (by decide) (by decide)).1.mpr (by decide)

/-- Counterexample for C10: with the ack timestamp still zero but a hold
of only 5000 ms the gate denies HoldTooShort, not LinkDown — the hold
check has priority, so the never-acknowledged link does not make every
denial a link-down denial. -/
theorem gate_zero_ack_cex :
    gZero.lastSendSuccessTs = 0
      ∧ evaluate gZero ≠ GateResult.Deny GateReason.LinkDown
      ∧ evaluate gZero = GateResult.Deny GateReason.HoldTooShort := by
  decide

/-- C10 (amended): if no transmission was ever acknowledged
(`lastSendSuccessTs` still 0), the gate never allows, and every request
whose hold meets the threshold is denied LinkDown regardless of sensor
health and position fix. -/
theorem gate_zero_ack_denies (g : GateState)
    (h : g.lastSendSuccessTs = 0) :
    evaluate g ≠ .Allow
      ∧ (TEN_SEC_MS ≤ g.now - g.pressStart →
          evaluate g = .Deny .LinkDown) := by
  simp only [evaluate, linkOK, h, TEN_SEC_MS]
  split_ifs <;> simp_all

/-- Witness for C10 (amended): long hold, zero ack → Deny LinkDown. -/
theorem gate_zero_ack_denies_witness :
    evaluate gZeroHold = GateResult.Deny GateReason.LinkDown :=
  (gate_zero_ack_denies gZeroHold (by decide)).2 (by decide)

/-- C1: for every nonempty sequence of submissions carrying the same
`batchId` — any interleaving, any mix of the direct HTTP path and the
MQTT bus path — starting from a system with no record and no fan-out
invocation for that id, the store ends with exactly one record for the
id and the fan-out is invoked at most once for it. -/
theorem dedup_idempotence (b : Option Nat) (evs : List (Path × Nat × Sample))
    (sys : Sys) (hne : evs ≠ [])
    (hall : ∀ ev ∈ evs, (ev.2.2 : Sample).batchId = b)
    (h0 : storeCount b sys = 0) (hc0 : castCount b sys = 0) :
    storeCount b (runSubmits evs sys) = 1
      ∧ castCount b (runSubmits evs sys) ≤ 1 := by
  cases evs with
  | nil => exact absurd rfl hne
  | cons e rest =>
    obtain ⟨p, now, s⟩ := e
    have hb : s.batchId = b := hall (p, now, s) (List.mem_cons_self _ _)
    have hfree : hasBatch sys.store b = false :=
      hasBatch_of_storeCount_zero b sys h0
    have step := submit_new b now sys s p hb hfree
    have hrun : runSubmits ((p, now, s) :: rest) sys
        = runSubmits rest (submitStep sys (p, now, s)) := rfl
    rw [hrun, runSubmits_dup b rest _
      (fun ev hev => hall ev (List.mem_cons_of_mem _ hev)) step.2.2]
    refine ⟨?_, ?_⟩
    · rw [step.1, h0]
    · rw [step.2.1, hc0]

/-- Witness for C1: batch 10 submitted once per path ends as one record
and at most one fan-out invocation. -/
theorem dedup_idempotence_witness :
    storeCount (some 10)
        (runSubmits [(Path.direct, 5, sDup2), (Path.bus, 9, sDup2)] sys0) = 1
      ∧ castCount (some 10)
          (runSubmits [(Path.direct, 5, sDup2), (Path.bus, 9, sDup2)] sys0) ≤ 1 :=
  dedup_idempotence (some 10) _ sys0 (by decide) (by decide) (by decide)
    (by decide)

/-- C3: two concurrent `insertOne` calls of the same `batchId` — each an
atomic check-and-insert, interleaved in either order — yield exactly one
Inserted and one Duplicate, never two Inserted. -/
theorem insert_race (sched : List (Fin 2)) (s : Fin 2 → Sample)
    (store : List Sample) (b : Option Nat)
    (hs : sched = [0, 1] ∨ sched = [1, 0])
    (h0 : (s 0).batchId = b) (h1 : (s 1).batchId = b)
    (hfree : hasBatch store b = false) :
    (runSchedule sched s store).1.count InsertOutcome.Inserted = 1
      ∧ (runSchedule sched s store).1.count InsertOutcome.Duplicate = 1 := by
  rcases hs with h | h
  · subst h
    have h2 : hasBatch (s 0 :: store) b = true := by simp [hasBatch, h0]
    simp [runSchedule, insertOne, h0, h1, hfree, h2]
  · subst h
    have h2 : hasBatch (s 1 :: store) b = true := by simp [hasBatch, h1]
    simp [runSchedule, insertOne, h0, h1, hfree, h2]

/-- Witness for C3: the two racing batch-77 inserts into the empty store
give one Inserted and one Duplicate. -/
theorem insert_race_witness :
    (runSchedule [0, 1] raceSamples []).1.count InsertOutcome.Inserted = 1
      ∧ (runSchedule [0, 1] raceSamples []).1.count InsertOutcome.Duplicate = 1 :=
  insert_race [0, 1] raceSamples [] (some 77) (Or.inl rfl) (by decide)
    (by decide) rfl

/-- Counterexample for C4: at requested limit 0 the code uses 100, not
`max 1 (min 0 1000) = 1` (0 is falsy, so the default applies), and a
negative requested limit passes through without the lower clamp the
claim states. -/
theorem pagination_cex :
    effectiveLimit (some 0) = 100
      ∧ effectiveLimit (some 0) ≠ max 1 (min 0 1000)
      ∧ effectiveLimit (some (-5)) = -5
      ∧ effectiveLimit (some (-5)) ≠ max 1 (min (-5) 1000) := by
  decide

/-- C4 (amended): the effective limit is `min(requested, 1000)` for any
nonzero requested value (negative values are not clamped up to 1), and
100 when the parameter is missing, non-numeric, or 0; a request with
limit 5000 is clamped to 1000, so at most 1000 records are returned. -/
theorem pagination_clamp (n : Int) (hn : n ≠ 0) :
    effectiveLimit (some n) = min n 1000
      ∧ effectiveLimit none = 100
      ∧ effectiveLimit (some 0) = 100
      ∧ ∀ (store : List Sample) (skip : Nat),
          (listSamples store (some 5000) skip).length ≤ 1000 := by
  refine ⟨by simp [effectiveLimit, hn], rfl, rfl, ?_⟩
  intro store skip
  simp [listSamples, effectiveLimit, List.length_take]

/-- Witness for C4 (amended): requested 5000 is clamped to 1000. -/
theorem pagination_clamp_witness :
    effectiveLimit (some 5000) = min 5000 1000 :=
  (pagination_clamp 5000 (by decide)).1

/-- C5: a submission whose `batchId` is already stored returns the
duplicate outcome on either path without modifying the previously stored
record (the system state, store and cast logs included, is unchanged)
and without raising an error: the direct path answers 409 and the bus
path absorbs it silently. -/
theorem duplicate_no_modify (sys : Sys) (r s : Sample) (now : Nat)
    (hr : r ∈ sys.store) (hb : r.batchId = s.batchId) :
    postSample now sys s = (HttpResp.conflict, sys)
      ∧ processSample now sys s = sys := by
  have h : hasBatch sys.store s.batchId = true := by
    rw [hasBatch, List.any_eq_true]
    exact ⟨r, hr, by simp [hb]⟩
  exact ⟨postSample_dup now sys s h, processSample_dup now sys s h⟩

/-- Witness for C5: resubmitting batch 10 with a different tempC leaves
the system holding the original record and answers 409. -/
theorem duplicate_no_modify_witness :
    postSample 99 sysDup sDup2 = (HttpResp.conflict, sysDup) :=
  (duplicate_no_modify sysDup sDup1 sDup2 99 (by decide) (by decide)).1

/-- Counterexample for C6: a sample with `batchId` missing is not
rejected — the direct path persists it, broadcasts it, and answers
created (201), contradicting the claimed InvalidSample/bad-request
handling. -/
theorem no_validation_cex :
    (postSample 99 sys0 sNoId).1 = HttpResp.created none
      ∧ (postSample 99 sys0 sNoId).2.store.length = 1
      ∧ (postSample 99 sys0 sNoId).2.backendCasts.length = 1 := by
  decide

/-- C6 (amended): neither path validates required fields.  A sample with
`batchId` missing is persisted (indexed under the null key) and
broadcast by whichever path receives it, and the direct-path caller is
answered created; the only rejection the direct path can give such a
sample is the duplicate conflict once a null-key record exists. -/
theorem no_validation (sys : Sys) (now : Nat) (s : Sample)
    (hb : s.batchId = none) (hfree : hasBatch sys.store none = false) :
    (postSample now sys s).1 = HttpResp.created none
      ∧ (postSample now sys s).2.store = stampDirect now s :: sys.store
      ∧ (postSample now sys s).2.backendCasts
          = stampDirect now s :: sys.backendCasts
      ∧ (processSample now sys s).store = stampBus now s :: sys.store
      ∧ ∀ (now2 : Nat) (s2 : Sample), s2.batchId = none →
          (postSample now2 (postSample now sys s).2 s2).1
            = HttpResp.conflict := by
  have hfree' : hasBatch sys.store s.batchId = false := by rw [hb]; exact hfree
  have hpost := postSample_new now sys s hfree'
  have hproc := processSample_new now sys s hfree'
  refine ⟨by rw [hpost, hb], by rw [hpost], by rw [hpost], by rw [hproc], ?_⟩
  intro now2 s2 hb2
  have hdup : hasBatch (postSample now sys s).2.store s2.batchId = true := by
    rw [hpost, hb2]
    simp [hasBatch, stampDirect_batchId, hb]
  rw [postSample_dup now2 _ s2 hdup]

/-- Witness for C6 (amended): the id-less sample is stored and answered
created by the direct path. -/
theorem no_validation_witness :
    (postSample 99 sys0 sNoId).1 = HttpResp.created none :=
  (no_validation sys0 99 sNoId rfl rfl).1

/-- Counterexample for C7: with subscribers A, B, C where B fails on
send, `broadcastToWS` delivers to A and C — but B is still in the live
set afterward: the broadcast function never removes connections, so the
claimed removal does not happen. -/
theorem broadcast_cex :
    (broadcastToWS [wsA, wsB, wsC] 42).2 = [(0, 42), (2, 42)]
      ∧ (broadcastToWS [wsA, wsB, wsC] 42).1 = [wsA, wsB, wsC]
      ∧ wsB ∈ (broadcastToWS [wsA, wsB, wsC] 42).1 := by
  decide

/-- C7 (amended): `broadcastToWS` serializes once and delivers the same
payload to every open, non-failing subscriber regardless of failures of
the others, and raises no error to its caller; but it leaves the live
set exactly as it was — a failed or non-open connection is removed only
by the separate connection close/error handlers. -/
theorem broadcast_isolation (clients : List WSClient) (payload : Nat)
    (c : WSClient) (hc : c ∈ clients) (hopen : c.readyState = 1)
    (hok : c.sendFails = false) :
    (c.id, payload) ∈ (broadcastToWS clients payload).2
      ∧ (broadcastToWS clients payload).1 = clients
      ∧ ∀ w : WSClient, w ∉ wsOnError clients w := by
  refine ⟨?_, rfl, ?_⟩
  · rw [broadcastToWS]
    exact List.mem_map.mpr
      ⟨c, List.mem_filter.mpr ⟨hc, by simp [hopen, hok]⟩, rfl⟩
  · intro w hw
    have := (List.mem_filter.mp hw).2
    simp at this

/-- Witness for C7 (amended): subscriber A still receives the payload
when B is failing. -/
theorem broadcast_isolation_witness :
    (0, 42) ∈ (broadcastToWS [wsA, wsB, wsC] 42).2 :=
  (broadcast_isolation [wsA, wsB, wsC] 42 wsA (by decide) rfl rfl).1

/-- Counterexample for C8: the same raw payload, already carrying
timestamps, produces different Sample Store mutations on the two paths —
the direct path overwrites `createdAt`/`updatedAt` with server time
while the bus path keeps the inbound values, so the stored records
differ. -/
theorem paths_differ_cex :
    (postSample 99 sys0 pStamped).2.store
      ≠ (processSample 99 sys0 pStamped).store := by
  decide

/-- C8 (amended): the two paths share the dedup decision (same
collection, same unique key) and the same broadcast rule (broadcast iff
newly inserted), and neither validates; but the logic is duplicated per
process, timestamping differs (direct overwrites, bus assigns only if
absent) so the store mutations coincide only for payloads without
inbound timestamps, and each path broadcasts only to its own
subscriber set. -/
theorem paths_agree_when_unstamped (sys : Sys) (now : Nat) (p : Sample)
    (hc : p.createdAt = none) (hu : p.updatedAt = none) :
    (postSample now sys p).2.store = (processSample now sys p).store
      ∧ ((postSample now sys p).2.backendCasts.length
            = sys.backendCasts.length
          ↔ (processSample now sys p).bridgeCasts.length
            = sys.bridgeCasts.length)
      ∧ (postSample now sys p).2.bridgeCasts = sys.bridgeCasts
      ∧ (processSample now sys p).backendCasts = sys.backendCasts := by
  have hstamp : stampBus now p = stampDirect now p := by
    simp [stampBus, stampDirect, hc, hu, jsOrNow]
  cases hcase : hasBatch sys.store p.batchId
  · have hpost := postSample_new now sys p hcase
    have hproc := processSample_new now sys p hcase
    rw [hpost, hproc, hstamp]
    refine ⟨rfl, ?_, rfl, rfl⟩
    simp
  · have hpost := postSample_dup now sys p hcase
    have hproc := processSample_dup now sys p hcase
    rw [hpost, hproc]
    exact ⟨rfl, by simp, rfl, rfl⟩

/-- Witness for C8 (amended): an unstamped payload is stored identically
by the two paths. -/
theorem paths_agree_when_unstamped_witness :
    (postSample 99 sys0 pPlain).2.store = (processSample 99 sys0 pPlain).store :=
  (paths_agree_when_unstamped sys0 99 pPlain rfl rfl).1

/-- A nonzero timestamp is truthy in JS, so the fallback keeps it. -/
theorem jsOrNow_of_ne_zero (v now : Nat) (h : v ≠ 0) :
    jsOrNow (some v) now = some v := by
  cases v with
  | zero => exact absurd rfl h
  | succ k => rfl

/-- Counterexample for C9: a payload already carrying the server
timestamp 5 is stored by the direct path with timestamp 99 (the time of
submission) — the direct path assigns unconditionally, not only when the
field is absent. -/
theorem timestamps_cex :
    (postSample 99 sys0 pCarry).2.store.map Sample.createdAt = [some 99]
      ∧ pCarry.createdAt = some 5 := by
  decide

/-- C9 (amended): the bus path assigns the server timestamps only if
absent (a present nonzero value is kept unchanged through persistence),
while the direct path unconditionally overwrites them with the server
clock; once a record is stored, no later submission of the same
`batchId` on either path rewrites it. -/
theorem timestamps_policy (sys : Sys) (now : Nat) (p : Sample) (v w : Nat)
    (hv : p.createdAt = some v) (hv0 : v ≠ 0)
    (hw : p.updatedAt = some w) (hw0 : w ≠ 0)
    (hfree : hasBatch sys.store p.batchId = false) :
    (processSample now sys p).store = p :: sys.store
      ∧ (postSample now sys p).2.store = stampDirect now p :: sys.store
      ∧ (stampDirect now p).createdAt = some now
      ∧ (stampDirect now p).updatedAt = some now
      ∧ ∀ (now2 : Nat) (s2 : Sample), s2.batchId = p.batchId →
          (postSample now2 (processSample now sys p) s2).2
              = processSample now sys p
            ∧ processSample now2 (processSample now sys p) s2
              = processSample now sys p := by
  have hbus : stampBus now p = p := by
    cases p with
    | mk bid t c u =>
      simp only at hv hw
      rw [stampBus]
      simp [hv, hw, jsOrNow_of_ne_zero v now hv0, jsOrNow_of_ne_zero w now hw0]
  have hproc := processSample_new now sys p hfree
  have hpost := postSample_new now sys p hfree
  refine ⟨by rw [hproc, hbus], by rw [hpost], rfl, rfl, ?_⟩
  intro now2 s2 hb2
  have hdup : hasBatch (processSample now sys p).store s2.batchId = true := by
    rw [hproc, hbus, hb2]
    simp [hasBatch]
  exact ⟨by rw [postSample_dup now2 _ s2 hdup],
         processSample_dup now2 _ s2 hdup⟩

/-- Witness for C9 (amended): the bus path keeps the inbound timestamps
5 and 6 of `pKeep` through persistence. -/
theorem timestamps_policy_witness :
    (processSample 99 sys0 pKeep).store = [pKeep] :=
  (timestamps_policy sys0 99 pKeep 5 6 rfl (by decide) rfl (by decide) rfl).1

end Airguard
